import Mathlib

/-!
# Verification of the carrier-integration core

Shallow embedding of the Cybership carrier-integration service (TypeScript)
and proofs about it: the HTTP transport's error classification and retry
policy, the UPS OAuth token cache, the UPS carrier adapter's validation and
response mapping, the carrier factory, and the rate-shopping aggregator.

Conventions of the embedding:
* JavaScript numbers are modelled as `Int` (timestamps, HTTP statuses,
  attempt counters) or `ℚ` (monetary amounts, weights, delays); `NaN` is
  modelled explicitly where `parseInt`/`parseFloat` can produce it.
* Network effects are modelled by passing each call's outcome in as data and
  recording the calls a code path performs as an explicit trace.
* Diagnostic fields of errors that carry wall-clock time or opaque JSON
  (`timestamp`, `details`) are elided; `code`, `message`, `retryable` and
  `carrierCode` are kept.
-/

set_option autoImplicit false

namespace Cybership

/-- The error taxonomy of `src/domain/models.ts` (`enum ErrorCode`). -/
inductive ErrorCode where
  | AUTH_FAILED
  | AUTH_TOKEN_EXPIRED
  | AUTH_INVALID_CREDENTIALS
  | VALIDATION_ERROR
  | INVALID_ADDRESS
  | INVALID_PACKAGE
  | API_ERROR
  | RATE_LIMIT_EXCEEDED
  | SERVICE_UNAVAILABLE
  | NETWORK_ERROR
  | TIMEOUT
  | CARRIER_ERROR
  | NO_RATES_AVAILABLE
  | UNKNOWN_ERROR
  deriving DecidableEq, Repr

/-- `CarrierError` of `src/domain/models.ts`, minus the elided diagnostic
fields (`details`, `timestamp`). -/
structure CarrierError where
  code : ErrorCode
  message : String
  retryable : Bool
  carrierCode : Option String := none
  deriving DecidableEq, Repr

/-- The part of an `AxiosError` that `HttpClient.handleAxiosError` inspects:
the transport-level error code string (`error.code`) and, when a response was
received, its HTTP status (`error.response.status`). `responseStatus = none`
models `error.response` being undefined. -/
structure AxiosFault where
  code : Option String
  responseStatus : Option Int
  deriving DecidableEq, Repr

/-- `HttpClient.handleAxiosError` (src/unnamed/part_004, lines 89–196):
the deterministic classification of a raw axios fault into a
`CarrierError`. The original throws; here the produced error is returned. -/
def handleAxiosError (e : AxiosFault) : CarrierError :=
  if e.code = some "ECONNABORTED" ∨ e.code = some "ETIMEDOUT" then
    { code := .TIMEOUT, message := "Request timed out", retryable := true }
  else
    match e.responseStatus with
    | none =>
        { code := .NETWORK_ERROR, message := "Network error occurred",
          retryable := true }
    | some status =>
        if status = 429 then
          { code := .RATE_LIMIT_EXCEEDED, message := "API rate limit exceeded",
            retryable := true }
        else if status = 401 then
          { code := .AUTH_FAILED, message := "Authentication failed",
            retryable := false }
        else if status = 403 then
          { code := .AUTH_INVALID_CREDENTIALS,
            message := "Invalid credentials or insufficient permissions",
            retryable := false }
        else if 500 ≤ status then
          { code := .SERVICE_UNAVAILABLE,
            message := "Carrier service temporarily unavailable",
            retryable := true }
        else if 400 ≤ status ∧ status < 500 then
          { code := .API_ERROR, message := "Invalid request to carrier API",
            retryable := false }
        else
          { code := .UNKNOWN_ERROR, message := "An unexpected error occurred",
            retryable := false }

/-- The spec's eight classification rules, as guards in the spec's priority
order (rule 0 first). Rules 8 and beyond never apply. -/
def specRuleApplies : Nat → AxiosFault → Bool
  | 0, e => e.code = some "ECONNABORTED" ∨ e.code = some "ETIMEDOUT"
  | 1, e => e.responseStatus = none
  | 2, e => e.responseStatus = some 429
  | 3, e => e.responseStatus = some 401
  | 4, e => e.responseStatus = some 403
  | 5, e => match e.responseStatus with
            | some s => 500 ≤ s
            | none => false
  | 6, e => match e.responseStatus with
            | some s => 400 ≤ s ∧ s < 500 ∧ s ≠ 401 ∧ s ≠ 403 ∧ s ≠ 429
            | none => false
  | 7, _ => true
  | _ + 8, _ => false

/-- The typed outcome the spec assigns to each of the eight rules. -/
def specRuleOutcome : Nat → ErrorCode × Bool
  | 0 => (.TIMEOUT, true)
  | 1 => (.NETWORK_ERROR, true)
  | 2 => (.RATE_LIMIT_EXCEEDED, true)
  | 3 => (.AUTH_FAILED, false)
  | 4 => (.AUTH_INVALID_CREDENTIALS, false)
  | 5 => (.SERVICE_UNAVAILABLE, true)
  | 6 => (.API_ERROR, false)
  | _ => (.UNKNOWN_ERROR, false)

/-- Index of the first spec rule applying to a fault, computed by walking the
rules in the spec's priority order. -/
def firstSpecRule (e : AxiosFault) : Nat :=
  if specRuleApplies 0 e then 0
  else if specRuleApplies 1 e then 1
  else if specRuleApplies 2 e then 2
  else if specRuleApplies 3 e then 3
  else if specRuleApplies 4 e then 4
  else if specRuleApplies 5 e then 5
  else if specRuleApplies 6 e then 6
  else 7

/-- `HttpClient.executeWithRetry` (src/unnamed/part_004, lines 56–72).
`op k` is the outcome of the operation's (k+1)-th performance (attempt
index `k`); the transport classifies every failure into a `CarrierError`
before this code sees it, so failures are modelled as `CarrierError`
directly. Returns the final outcome paired with the number of times the
operation was performed. The sleep between attempts is pure delay and is
not modelled here (see `calculateBackoffDelay` for its length). -/
def executeWithRetry {α : Type} (maxRetries : Nat)
    (op : Nat → Except CarrierError α) (attempt : Nat) :
    Except CarrierError α × Nat :=
  match op attempt with
  | .ok v => (.ok v, 1)
  | .error e =>
      if h : e.retryable = true ∧ attempt < maxRetries then
        let r := executeWithRetry maxRetries op (attempt + 1)
        (r.1, r.2 + 1)
      else
        (.error e, 1)
termination_by maxRetries - attempt
decreasing_by omega

/-- `HttpClient.calculateBackoffDelay` (src/unnamed/part_004, lines 74–79).
`rand` stands for the value drawn by `Math.random()`, a number in `[0, 1)`. -/
def calculateBackoffDelay (attempt : Nat) (rand : ℚ) : ℚ :=
  let baseDelay : ℚ := 1000
  let maxDelay : ℚ := 10000
  let delay := min (baseDelay * 2 ^ attempt) maxDelay
  delay + rand * 1000

/-! ## UPS OAuth token manager (`UpsAuthManager`, src/unnamed/part_002) -/

/-- A JSON field value as far as `TokenResponseSchema` inspects it:
a string, a number, or absent/other. -/
inductive JField where
  | str (s : String)
  | num (n : ℚ)
  | absent
  deriving DecidableEq, Repr

/-- The raw body of an OAuth token response, before Zod validation. -/
structure RawTokenResponse where
  access_token : JField
  token_type : JField
  expires_in : JField
  issued_at : JField
  deriving DecidableEq, Repr

/-- The validated token response (`TokenResponseSchema`). -/
structure TokenResponse where
  access_token : String
  token_type : String
  expires_in : ℚ
  issued_at : Option ℚ
  deriving DecidableEq, Repr

/-- `TokenResponseSchema.parse`: `access_token` and `token_type` must be
strings, `expires_in` a number, `issued_at` an optional number.
`none` models a thrown `ZodError`. -/
def parseTokenResponse (raw : RawTokenResponse) : Option TokenResponse :=
  match raw.access_token, raw.token_type, raw.expires_in, raw.issued_at with
  | .str at_, .str tt, .num ei, .num ia =>
      some { access_token := at_, token_type := tt, expires_in := ei,
             issued_at := some ia }
  | .str at_, .str tt, .num ei, .absent =>
      some { access_token := at_, token_type := tt, expires_in := ei,
             issued_at := none }
  | _, _, _, _ => none

/-- `CachedToken` of src/unnamed/part_002: token string plus absolute expiry
instant in epoch milliseconds. -/
structure CachedToken where
  accessToken : String
  expiresAt : ℚ
  deriving DecidableEq, Repr

/-- The outcome of the transport `post` that the token manager performs:
either a body, or a thrown `CarrierIntegrationError` (everything the
transport's interceptor classifies), or some other thrown value. -/
inductive PostOutcome (α : Type) where
  | ok (data : α)
  | classified (e : CarrierError)
  | otherFailure (msg : String)
  deriving DecidableEq, Repr

/-- The network calls a code path performs, in order. -/
inductive NetCall where
  | oauth
  | rating
  deriving DecidableEq, Repr

/-- `tokenBuffer` of `UpsAuthManager`: 300 000 ms. -/
def tokenBuffer : ℚ := 300000

/-- `UpsAuthManager.isTokenValid` (src/unnamed/part_002, lines 415–421):
`now < expiresAt - tokenBuffer`. Times in epoch milliseconds. -/
def isTokenValid (now : ℚ) (token : CachedToken) : Bool :=
  decide (now < token.expiresAt - tokenBuffer)

/-- `UpsAuthManager.acquireToken` (src/unnamed/part_002, lines 423–473):
posts to the OAuth endpoint, validates the body, caches the token.
Its catch clause maps a `ZodError` to `API_ERROR`, rethrows a
`CarrierIntegrationError` unchanged, and wraps anything else as
`AUTH_FAILED`. Returns the result and the new cache state. -/
def acquireToken (now : ℚ) (post : PostOutcome RawTokenResponse)
    (cache : Option CachedToken) :
    Except CarrierError String × Option CachedToken :=
  match post with
  | .ok raw =>
      match parseTokenResponse raw with
      | some td =>
          let tok : CachedToken :=
            { accessToken := td.access_token,
              expiresAt := now + td.expires_in * 1000 }
          (.ok tok.accessToken, some tok)
      | none =>
          (.error { code := .API_ERROR,
                    message := "Invalid token response from UPS",
                    retryable := false }, cache)
  | .classified e => (.error e, cache)
  | .otherFailure _ =>
      (.error { code := .AUTH_FAILED,
                message := "Failed to acquire OAuth token",
                retryable := false }, cache)

/-- `UpsAuthManager.getAccessToken` (src/unnamed/part_002, lines 407–413):
serve the cached token while valid, otherwise acquire. Returns the result,
the new cache state, and the network calls performed. -/
def getAccessToken (cache : Option CachedToken) (now : ℚ)
    (post : PostOutcome RawTokenResponse) :
    Except CarrierError String × Option CachedToken × List NetCall :=
  match cache with
  | some tok =>
      if isTokenValid now tok then (.ok tok.accessToken, cache, [])
      else
        let r := acquireToken now post cache
        (r.1, r.2, [NetCall.oauth])
  | none =>
      let r := acquireToken now post cache
      (r.1, r.2, [NetCall.oauth])

/-! ## Domain model (`src/domain/models.ts`) -/

/-- Weight units accepted by `WeightSchema`. -/
inductive WeightUnit where
  | LBS
  | KGS
  deriving DecidableEq, Repr

/-- Dimension units accepted by `DimensionsSchema`. -/
inductive DimUnit where
  | IN
  | CM
  deriving DecidableEq, Repr

/-- `Address` (already typed; `AddressSchema`'s refinements are in
`validAddress`). -/
structure Address where
  street1 : String
  street2 : Option String
  city : String
  state : Option String
  postalCode : String
  countryCode : String
  isResidential : Bool
  deriving DecidableEq, Repr

/-- `Dimensions`. -/
structure Dimensions where
  length : ℚ
  width : ℚ
  height : ℚ
  unit : DimUnit
  deriving DecidableEq, Repr

/-- `Weight`. -/
structure Weight where
  value : ℚ
  unit : WeightUnit
  deriving DecidableEq, Repr

/-- The optional declared value of a package. -/
structure DeclaredValue where
  amount : ℚ
  currency : String
  deriving DecidableEq, Repr

/-- `Package`. -/
structure Package where
  weight : Weight
  dimensions : Option Dimensions
  packagingType : Option String
  declaredValue : Option DeclaredValue
  deriving DecidableEq, Repr

/-- The optional requested-services flags of a rate request. -/
structure RequestedServices where
  saturdayDelivery : Option Bool
  signatureRequired : Option Bool
  insurance : Option Bool
  deriving DecidableEq, Repr

/-- `RateRequest`. -/
structure RateRequest where
  origin : Address
  destination : Address
  packages : List Package
  serviceLevel : Option String
  shipmentDate : Option String
  requestedServices : Option RequestedServices
  deriving DecidableEq, Repr

/-- The refinements of `AddressSchema`: non-empty street1/city/postalCode,
a present state is exactly 2 characters, countryCode is exactly 2. -/
def validAddress (a : Address) : Bool :=
  decide (1 ≤ a.street1.length) && decide (1 ≤ a.city.length) &&
  (match a.state with
   | some s => decide (s.length = 2)
   | none => true) &&
  decide (1 ≤ a.postalCode.length) && decide (a.countryCode.length = 2)

/-- The refinements of `DimensionsSchema`: all sides positive. -/
def validDimensions (d : Dimensions) : Bool :=
  decide (0 < d.length) && decide (0 < d.width) && decide (0 < d.height)

/-- The refinements of `PackageSchema`: positive weight, valid optional
dimensions, positive optional declared value with 3-letter currency. -/
def validPackage (p : Package) : Bool :=
  decide (0 < p.weight.value) &&
  (match p.dimensions with
   | some d => validDimensions d
   | none => true) &&
  (match p.declaredValue with
   | some v => decide (0 < v.amount) && decide (v.currency.length = 3)
   | none => true)

/-- `RateRequestSchema.parse` on an already-typed value
(src/domain/models.ts, lines 48–63): valid addresses, at least one package,
every package valid. -/
def validRateRequest (r : RateRequest) : Bool :=
  validAddress r.origin && validAddress r.destination &&
  decide (1 ≤ r.packages.length) && r.packages.all validPackage

/-! ## JS number parsing (`parseInt`/`parseFloat` as the mapper uses them) -/

/-- A JavaScript number that may be `NaN`. -/
inductive JsNum where
  | nan
  | num (q : ℚ)
  deriving DecidableEq, Repr

/-- Longest leading run of decimal digits. -/
def takeDigits (cs : List Char) : List Char :=
  cs.takeWhile Char.isDigit

/-- Value of a digit string. -/
def digitsToNat (cs : List Char) : Nat :=
  cs.foldl (fun acc c => acc * 10 + (c.toNat - 48)) 0

/-- `parseInt(s, 10)`: skip leading whitespace, one optional sign, longest
digit prefix; `NaN` when no digit follows. -/
def parseIntJs (s : String) : JsNum :=
  match s.toList.dropWhile Char.isWhitespace with
  | [] => .nan
  | c :: rest =>
      if c = '-' then
        let ds := takeDigits rest
        if ds.isEmpty then .nan else .num (-(digitsToNat ds : ℚ))
      else if c = '+' then
        let ds := takeDigits rest
        if ds.isEmpty then .nan else .num (digitsToNat ds : ℚ)
      else
        let ds := takeDigits (c :: rest)
        if ds.isEmpty then .nan else .num (digitsToNat ds : ℚ)

/-- `parseFloat(s)`: skip leading whitespace, one optional sign, digits with
an optional fractional part; `NaN` when no digit at all. (Exponent notation
is not modelled; no claim depends on it.) -/
def parseFloatJs (s : String) : JsNum :=
  let cs0 := s.toList.dropWhile Char.isWhitespace
  let sign : ℚ := match cs0 with
    | '-' :: _ => -1
    | _ => 1
  let cs := match cs0 with
    | '-' :: rest => rest
    | '+' :: rest => rest
    | _ => cs0
  let intPart := takeDigits cs
  let rest := cs.drop intPart.length
  let fracPart := match rest with
    | '.' :: r => takeDigits r
    | _ => []
  if intPart.isEmpty && fracPart.isEmpty then .nan
  else
    .num (sign * ((digitsToNat intPart : ℚ) +
      (digitsToNat fracPart : ℚ) / 10 ^ fracPart.length))

/-- JS `a || b` for an optional string `a`: `b` when `a` is absent or empty. -/
def jsOrString (a : Option String) (b : String) : String :=
  match a with
  | some s => if s = "" then b else s
  | none => b

/-- JS truthiness of an optional string: absent and `""` are falsy. -/
def truthyString : Option String → Option String
  | some s => if s = "" then none else some s
  | none => none

/-! ## UPS response types (`src/carriers/ups`, part of src/unnamed/part_002)
Only the fields `mapUpsResponseToRates` reads are carried. -/

/-- `UpsMonetaryValueSchema`. -/
structure UpsMonetaryValue where
  CurrencyCode : String
  MonetaryValue : String
  deriving DecidableEq, Repr

/-- The `Service` object of a rated shipment. -/
structure UpsServiceInfo where
  Code : String
  Description : Option String
  deriving DecidableEq, Repr

/-- A `RatedShipmentAlert` entry. -/
structure UpsAlert where
  Code : String
  Description : String
  deriving DecidableEq, Repr

/-- `BillingWeight` (unit code flattened from `UnitOfMeasurement.Code`). -/
structure UpsBillingWeight where
  unitCode : String
  Weight : String
  deriving DecidableEq, Repr

/-- `GuaranteedDelivery`. -/
structure UpsGuaranteedDelivery where
  BusinessDaysInTransit : Option String
  DeliveryByTime : Option String
  deriving DecidableEq, Repr

/-- The `Arrival` object inside `TimeInTransit.ServiceSummary.EstimatedArrival`. -/
structure UpsArrival where
  Date : String
  Time : Option String
  deriving DecidableEq, Repr

/-- `TimeInTransit` (the nested `ServiceSummary.EstimatedArrival.Arrival`
chain collapsed to its optional `Arrival`). -/
structure UpsTimeInTransit where
  BusinessDaysInTransit : Option String
  Arrival : Option UpsArrival
  deriving DecidableEq, Repr

/-- `UpsRatedShipmentSchema`, restricted to the fields the mapper reads. -/
structure UpsRatedShipment where
  Service : UpsServiceInfo
  RatedShipmentAlert : Option (List UpsAlert)
  BillingWeight : Option UpsBillingWeight
  BaseServiceCharge : Option UpsMonetaryValue
  TotalCharges : UpsMonetaryValue
  NegotiatedTotalCharge : Option UpsMonetaryValue
  GuaranteedDelivery : Option UpsGuaranteedDelivery
  TimeInTransit : Option UpsTimeInTransit
  deriving DecidableEq, Repr

/-- The polymorphic single-or-array `RatedShipment` field. -/
inductive UpsOneOrMany (α : Type) where
  | one (a : α)
  | many (xs : List α)
  deriving DecidableEq, Repr

/-- `Response.ResponseStatus`. -/
structure UpsResponseStatus where
  Code : String
  Description : String
  deriving DecidableEq, Repr

/-- The `Response` envelope of a UPS rate response. -/
structure UpsResponseEnvelope where
  ResponseStatus : UpsResponseStatus
  CustomerContext : Option String
  deriving DecidableEq, Repr

/-- `UpsRateResponseSchema`'s payload. -/
structure UpsRateResponse where
  Response : UpsResponseEnvelope
  RatedShipment : UpsOneOrMany UpsRatedShipment
  deriving DecidableEq, Repr

/-! ## Normalized rate response (`src/domain/models.ts`) -/

/-- `Money`; the amount comes from `parseFloat` so it may be `NaN`. -/
structure Money where
  amount : JsNum
  currency : String
  deriving DecidableEq, Repr

/-- The charge breakdown the UPS mapper produces (base charge only). -/
structure ChargeBreakdown where
  baseCharge : Money
  deriving DecidableEq, Repr

/-- `RateQuote` (the opaque `metadata` mapping is elided). -/
structure RateQuote where
  carrier : String
  serviceCode : String
  serviceName : String
  totalCharge : Money
  chargeBreakdown : Option ChargeBreakdown
  transitDays : Option JsNum
  guaranteedDelivery : Bool
  deliveryDate : Option String
  deriving DecidableEq, Repr

/-- `RateResponse` (the wall-clock `timestamp` field is elided). -/
structure RateResponse where
  quotes : List RateQuote
  requestId : Option String
  deriving DecidableEq, Repr

/-- `UPS_SERVICE_NAMES` (src/src/carriers/ups/ups-mapper.ts, lines 37–49). -/
def upsServiceNames : String → Option String
  | "01" => some "Next Day Air"
  | "02" => some "Second Day Air"
  | "03" => some "Ground"
  | "07" => some "Worldwide Express"
  | "08" => some "Worldwide Expedited"
  | "11" => some "Standard"
  | "12" => some "Three-Day Select"
  | "13" => some "Next Day Air Saver"
  | "14" => some "Next Day Air Early"
  | "54" => some "Worldwide Express Plus"
  | "65" => some "Worldwide Saver"
  | _ => none

/-- The per-shipment body of `mapUpsResponseToRates`
(src/src/carriers/ups/ups-mapper.ts, lines 157–209). -/
def mapRatedShipment (shipment : UpsRatedShipment) : RateQuote :=
  let charges := match shipment.NegotiatedTotalCharge with
    | some c => c
    | none => shipment.TotalCharges
  let serviceCode := shipment.Service.Code
  let serviceName := jsOrString shipment.Service.Description
    (jsOrString (upsServiceNames serviceCode) ("UPS Service " ++ serviceCode))
  let transitDays : Option JsNum :=
    match truthyString (shipment.TimeInTransit.bind
        UpsTimeInTransit.BusinessDaysInTransit) with
    | some s => some (parseIntJs s)
    | none =>
        match truthyString (shipment.GuaranteedDelivery.bind
            UpsGuaranteedDelivery.BusinessDaysInTransit) with
        | some s => some (parseIntJs s)
        | none => none
  let deliveryDate := truthyString
    ((shipment.TimeInTransit.bind UpsTimeInTransit.Arrival).map UpsArrival.Date)
  { carrier := "UPS",
    serviceCode := serviceCode,
    serviceName := serviceName,
    totalCharge := { amount := parseFloatJs charges.MonetaryValue,
                     currency := charges.CurrencyCode },
    chargeBreakdown := shipment.BaseServiceCharge.map fun b =>
      { baseCharge := { amount := parseFloatJs b.MonetaryValue,
                        currency := b.CurrencyCode } },
    transitDays := transitDays,
    guaranteedDelivery := shipment.GuaranteedDelivery.isSome,
    deliveryDate := deliveryDate }

/-- The single-or-array normalization at the head of `mapUpsResponseToRates`. -/
def upsShipmentList (r : UpsRateResponse) : List UpsRatedShipment :=
  match r.RatedShipment with
  | .one s => [s]
  | .many xs => xs

/-- `mapUpsResponseToRates` (src/src/carriers/ups/ups-mapper.ts,
lines 150–216). -/
def mapUpsResponseToRates (r : UpsRateResponse) : RateResponse :=
  { quotes := (upsShipmentList r).map mapRatedShipment,
    requestId := r.Response.CustomerContext }

/-- One entry of a UPS wire-level error body (`response.errors[i]`). -/
structure UpsApiErrorItem where
  code : String
  message : String
  deriving DecidableEq, Repr

/-- `parseUpsError` (src/src/carriers/ups/ups-mapper.ts, lines 218–248).
`errs = some l` models an error body whose `response.errors` is the array
`l`; `none` models any other shape. An empty array makes the original read
`errors[0].message` of `undefined`, whose TypeError lands in the fallback. -/
def parseUpsError (errs : Option (List UpsApiErrorItem)) : CarrierError :=
  match errs with
  | some (e :: _) =>
      { code := .CARRIER_ERROR,
        message := if e.message = "" then "UPS API error" else e.message,
        retryable := false,
        carrierCode := some e.code }
  | _ =>
      { code := .CARRIER_ERROR,
        message := "Unknown UPS API error",
        retryable := false }

/-! ## UPS carrier adapter (`UpsCarrier.getRates`, src/src/carriers/ups) -/

/-- The outcome of the rating-endpoint post: a body that does or does not
satisfy `UpsRateResponseSchema` (carrying the parsed value when it does), a
thrown `CarrierIntegrationError`, a thrown value with a `response` field
(handled through `parseUpsError`), or any other thrown value. -/
inductive RatingOutcome where
  | ok (parsed : Option UpsRateResponse)
  | classified (e : CarrierError)
  | withResponse (errs : Option (List UpsApiErrorItem))
  | other (msg : String)
  deriving DecidableEq, Repr

/-- Everything the environment decides during one `UpsCarrier.getRates`
run: the clock and the outcomes of the two possible network calls. -/
structure UpsEnv where
  now : ℚ
  tokenPost : PostOutcome RawTokenResponse
  ratingPost : RatingOutcome
  deriving Repr

/-- The error `CarrierIntegrationError.fromZodError` builds
(src/domain/models.ts, lines 155–163). -/
def validationError : CarrierError :=
  { code := .VALIDATION_ERROR, message := "Input validation failed",
    retryable := false }

/-- `UpsCarrier.getRates` (src/src/carriers/ups/ups-mapper.ts, lines
286–362): validate, fetch a token, post to the rating endpoint, parse,
check the business-status code, map. The carrier-specific wire request
built by `mapRateRequestToUps` is not inspected by any claim and is
elided from the recorded `rating` call. Returns the outcome, the auth
manager's cache state after the call, and the network calls performed. -/
def UpsCarrier.getRates (env : UpsEnv) (cache : Option CachedToken)
    (req : RateRequest) :
    Except CarrierError RateResponse × Option CachedToken × List NetCall :=
  if validRateRequest req = false then
    (.error validationError, cache, [])
  else
    match getAccessToken cache env.now env.tokenPost with
    | (.error e, cache', calls) => (.error e, cache', calls)
    | (.ok _token, cache', calls) =>
        match env.ratingPost with
        | .ok parsedOpt =>
            match parsedOpt with
            | none =>
                (.error { code := .API_ERROR,
                          message := "Invalid response format from UPS",
                          retryable := false },
                 cache', calls ++ [NetCall.rating])
            | some parsed =>
                if parsed.Response.ResponseStatus.Code ≠ "1" then
                  (.error { code := .CARRIER_ERROR,
                            message := jsOrString
                              (some parsed.Response.ResponseStatus.Description)
                              "UPS returned an error",
                            retryable := false },
                   cache', calls ++ [NetCall.rating])
                else
                  (.ok (mapUpsResponseToRates parsed),
                   cache', calls ++ [NetCall.rating])
        | .classified e => (.error e, cache', calls ++ [NetCall.rating])
        | .withResponse errs =>
            (.error (parseUpsError errs), cache', calls ++ [NetCall.rating])
        | .other _ =>
            (.error { code := .UNKNOWN_ERROR,
                      message := "Unexpected error during rate request",
                      retryable := false },
             cache', calls ++ [NetCall.rating])

/-! ## Carrier factory and service (src/unnamed/part_003, part_000) -/

/-- A constructed UPS adapter; its auth manager's `cachedToken` starts
`null`, carried here as `initialCache`. -/
structure UpsCarrierInst where
  initialCache : Option CachedToken
  deriving DecidableEq, Repr

/-- `DefaultCarrierFactory.getSupportedCarriers`: only `ups` is registered. -/
def getSupportedCarriers : List String := ["ups"]

/-- JS `String.prototype.toLowerCase` as the registry applies it:
character-wise lower-casing. -/
def toLowerCase (s : String) : String :=
  String.mk (s.toList.map Char.toLower)

/-- `DefaultCarrierFactory.createCarrier` (src/unnamed/part_003, lines
35–46): lower-case the name, look it up, run the registered constructor
(which builds a fresh `UpsCarrier`, hence a fresh empty auth cache), or
throw a plain `Error` listing the supported carriers. -/
def createCarrier (carrierName : String) : Except String UpsCarrierInst :=
  if toLowerCase carrierName = "ups" then
    .ok { initialCache := none }
  else
    .error ("Unsupported carrier: " ++ carrierName ++
      ". Supported carriers: " ++ String.intercalate ", " getSupportedCarriers)

/-- A failure surfaced by the service layer: either a `CarrierError` from a
carrier's path or the registry's plain `Error` for an unknown name. -/
inductive ServiceError where
  | carrier (e : CarrierError)
  | plain (msg : String)
  deriving DecidableEq, Repr

/-- `CarrierIntegrationService.getRates` (src/unnamed/part_000, lines
22–28): create the carrier through the factory, then run its `getRates`.
Returns the outcome and the network calls performed. -/
def CarrierIntegrationService.getRates (env : UpsEnv) (carrierName : String)
    (req : RateRequest) :
    Except ServiceError RateResponse × List NetCall :=
  match createCarrier carrierName with
  | .error msg => (.error (.plain msg), [])
  | .ok c =>
      match UpsCarrier.getRates env c.initialCache req with
      | (.ok r, _, calls) => (.ok r, calls)
      | (.error e, _, calls) => (.error (.carrier e), calls)

/-- JS `Map.set`: replace the value at an existing key in place, otherwise
append the entry. -/
def mapSet {β : Type} (m : List (String × β)) (k : String) (v : β) :
    List (String × β) :=
  if m.any (fun p => p.1 = k) then
    m.map (fun p => if p.1 = k then (k, v) else p)
  else
    m ++ [(k, v)]

/-- JS `Map.get`. -/
def mapGet {β : Type} (m : List (String × β)) (k : String) : Option β :=
  (m.find? (fun p => p.1 = k)).map Prod.snd

/-- `CarrierIntegrationService.shopRates` (src/unnamed/part_000, lines
33–51): one `getRates` per listed name, each failure caught and stored as
that name's entry. Each name's invocation sees its own environment
`envOf n`. The concurrent completions write to the map in some
nondeterministic order; as each name's value is a function of that name
alone, the resulting map is the same for every order and is modelled by a
left fold. -/
def shopRates (envOf : String → UpsEnv) (carrierNames : List String)
    (req : RateRequest) : List (String × Except ServiceError RateResponse) :=
  carrierNames.foldl
    (fun acc n =>
      mapSet acc n (CarrierIntegrationService.getRates (envOf n) n req).1)
    []

/-! ## Concrete values used to instantiate the proved properties -/

/-- A schema-valid address. -/
def sampleAddress : Address :=
  { street1 := "1 Main St", street2 := none, city := "Austin",
    state := some "TX", postalCode := "73301", countryCode := "US",
    isResidential := false }

/-- A schema-valid package. -/
def samplePackage : Package :=
  { weight := { value := 5, unit := .LBS }, dimensions := none,
    packagingType := none, declaredValue := none }

/-- A schema-valid rate request. -/
def sampleRequest : RateRequest :=
  { origin := sampleAddress, destination := sampleAddress,
    packages := [samplePackage], serviceLevel := none,
    shipmentDate := none, requestedServices := none }

/-- The same request with zero packages. -/
def emptyPackagesRequest : RateRequest :=
  { sampleRequest with packages := [] }

/-- A well-formed raw OAuth token body. -/
def rawToken (s : String) (exp : ℚ) : RawTokenResponse :=
  { access_token := .str s, token_type := .str "Bearer",
    expires_in := .num exp, issued_at := .absent }

/-- A schema-valid rated shipment whose `TimeInTransit.BusinessDaysInTransit`
is the string `"-2"`. -/
def negativeTransitShipment : UpsRatedShipment :=
  { Service := { Code := "03", Description := none },
    RatedShipmentAlert := none, BillingWeight := none,
    BaseServiceCharge := none,
    TotalCharges := { CurrencyCode := "USD", MonetaryValue := "10.5" },
    NegotiatedTotalCharge := none, GuaranteedDelivery := none,
    TimeInTransit := some { BusinessDaysInTransit := some "-2",
                            Arrival := none } }

/-- A schema-valid UPS rate response carrying `negativeTransitShipment`. -/
def negativeTransitUpsResponse : UpsRateResponse :=
  { Response := { ResponseStatus := { Code := "1", Description := "Success" },
                  CustomerContext := none },
    RatedShipment := .one negativeTransitShipment }

/-- An environment whose two network calls both succeed. -/
def sampleEnv : UpsEnv :=
  { now := 0, tokenPost := .ok (rawToken "tok" 3600),
    ratingPost := .ok (some negativeTransitUpsResponse) }

/-- The spec's fallback priority for the transit-days source string:
`TimeInTransit.BusinessDaysInTransit` when present and truthy, else
`GuaranteedDelivery.BusinessDaysInTransit` when present and truthy, else
absent. -/
def specTransitSource (s : UpsRatedShipment) : Option String :=
  match truthyString (s.TimeInTransit.bind
      UpsTimeInTransit.BusinessDaysInTransit) with
  | some v => some v
  | none => truthyString (s.GuaranteedDelivery.bind
      UpsGuaranteedDelivery.BusinessDaysInTransit)

/-- A rated shipment whose transit-days string is the digit string `"3"`. -/
def sampleTransitShipment : UpsRatedShipment :=
  { negativeTransitShipment with
    TimeInTransit := some { BusinessDaysInTransit := some "3",
                            Arrival := none } }

/-- A retryable classified error (as the transport produces for a timeout). -/
def retryableErrSample : CarrierError :=
  { code := .TIMEOUT, message := "Request timed out", retryable := true }

/-- A non-retryable classified error (as the transport produces for a 400). -/
def nonRetryableErrSample : CarrierError :=
  { code := .API_ERROR, message := "Invalid request to carrier API",
    retryable := false }

/-! # Theorems -/

/-- A first applicable rule is unique. -/
theorem firstRule_unique_aux {e : AxiosFault} {i k : Nat}
    (hk1 : specRuleApplies k e = true)
    (hk2 : ∀ j, j < k → specRuleApplies j e = false)
    (hi1 : specRuleApplies i e = true)
    (hi2 : ∀ j, j < i → specRuleApplies j e = false) : i = k := by
  rcases Nat.lt_trichotomy i k with h | h | h
  · exact Bool.noConfusion ((hk2 i h).symm.trans hi1)
  · exact h
  · exact Bool.noConfusion ((hi2 k h).symm.trans hk1)

/-- The rule `firstSpecRule` picks does apply. -/
theorem firstSpecRule_applies (e : AxiosFault) :
    specRuleApplies (firstSpecRule e) e = true := by
  unfold firstSpecRule
  split_ifs with h0 h1 h2 h3 h4 h5 h6 <;>
    first | assumption | simp [specRuleApplies]

/-- No rule before the one `firstSpecRule` picks applies. -/
theorem firstSpecRule_min (e : AxiosFault) :
    ∀ j, j < firstSpecRule e → specRuleApplies j e = false := by
  intro j hj
  unfold firstSpecRule at hj
  split_ifs at hj with h0 h1 h2 h3 h4 h5 h6 <;>
    [omega; skip; skip; skip; skip; skip; skip; skip] <;>
    interval_cases j <;> simp_all

/-- `handleAxiosError` returns the typed outcome of the first applicable
spec rule. -/
theorem handleAxiosError_eq_specRuleOutcome (e : AxiosFault) :
    (handleAxiosError e).code = (specRuleOutcome (firstSpecRule e)).1
    ∧ (handleAxiosError e).retryable = (specRuleOutcome (firstSpecRule e)).2 := by
  by_cases h0 : (e.code = some "ECONNABORTED" ∨ e.code = some "ETIMEDOUT")
  · have hfirst : firstSpecRule e = 0 := by
      simp [firstSpecRule, specRuleApplies, h0]
    rw [hfirst]
    simp [handleAxiosError, h0, specRuleOutcome]
  · rcases hstat : e.responseStatus with _ | s
    · have hfirst : firstSpecRule e = 1 := by
        simp [firstSpecRule, specRuleApplies, h0, hstat]
      rw [hfirst]
      simp [handleAxiosError, h0, hstat, specRuleOutcome]
    · by_cases h429 : s = 429
      · have hfirst : firstSpecRule e = 2 := by
          simp [firstSpecRule, specRuleApplies, h0, hstat, h429]
        rw [hfirst]
        simp [handleAxiosError, h0, hstat, h429, specRuleOutcome]
      · by_cases h401 : s = 401
        · have hfirst : firstSpecRule e = 3 := by
            simp [firstSpecRule, specRuleApplies, h0, hstat, h429, h401]
          rw [hfirst]
          simp [handleAxiosError, h0, hstat, h429, h401, specRuleOutcome]
        · by_cases h403 : s = 403
          · have hfirst : firstSpecRule e = 4 := by
              simp [firstSpecRule, specRuleApplies, h0, hstat, h429, h401, h403]
            rw [hfirst]
            simp [handleAxiosError, h0, hstat, h429, h401, h403, specRuleOutcome]
          · by_cases h500 : 500 ≤ s
            · have hfirst : firstSpecRule e = 5 := by
                simp [firstSpecRule, specRuleApplies, h0, hstat, h429, h401,
                  h403, h500]
              rw [hfirst]
              simp [handleAxiosError, h0, hstat, h429, h401, h403, h500,
                specRuleOutcome]
            · by_cases h400 : 400 ≤ s
              · have hlt : s < 500 := by omega
                have hfirst : firstSpecRule e = 6 := by
                  simp [firstSpecRule, specRuleApplies, h0, hstat, h429, h401,
                    h403, h500, h400, hlt]
                rw [hfirst]
                simp [handleAxiosError, h0, hstat, h429, h401, h403, h500,
                  h400, hlt, specRuleOutcome]
              · have hfirst : firstSpecRule e = 7 := by
                  simp [firstSpecRule, specRuleApplies, h0, hstat, h429, h401,
                    h403, h500, h400]
                rw [hfirst]
                simp [handleAxiosError, h0, hstat, h429, h401, h403, h500,
                  h400, specRuleOutcome]

/-- C1: transport error classification is the deterministic priority-ordered
mapping of the spec's eight rules: for every raw fault the first applicable
rule exists, is the unique minimal applicable rule, and
`handleAxiosError` produces exactly that rule's error code and
retryability (TIMEOUT/retryable, NETWORK_ERROR/retryable,
RATE_LIMIT_EXCEEDED/retryable, AUTH_FAILED, AUTH_INVALID_CREDENTIALS,
SERVICE_UNAVAILABLE/retryable, API_ERROR, UNKNOWN_ERROR). -/
theorem C1_transport_error_classification (e : AxiosFault) :
    specRuleApplies (firstSpecRule e) e = true
    ∧ (∀ j, j < firstSpecRule e → specRuleApplies j e = false)
    ∧ (∀ i, specRuleApplies i e = true →
        (∀ j, j < i → specRuleApplies j e = false) → i = firstSpecRule e)
    ∧ (handleAxiosError e).code = (specRuleOutcome (firstSpecRule e)).1
    ∧ (handleAxiosError e).retryable = (specRuleOutcome (firstSpecRule e)).2 :=
  ⟨firstSpecRule_applies e, firstSpecRule_min e,
   fun _ hi1 hi2 =>
     firstRule_unique_aux (firstSpecRule_applies e) (firstSpecRule_min e)
       hi1 hi2,
   (handleAxiosError_eq_specRuleOutcome e).1,
   (handleAxiosError_eq_specRuleOutcome e).2⟩

/-- C1 witness: the classification evaluated at the concrete fault
"HTTP 503 received": rule 5 applies first and yields
SERVICE_UNAVAILABLE, retryable. -/
theorem C1_transport_error_classification_witness :
    specRuleApplies (firstSpecRule ⟨none, some 503⟩) ⟨none, some 503⟩ = true
    ∧ (handleAxiosError ⟨none, some 503⟩).code
        = (specRuleOutcome (firstSpecRule ⟨none, some 503⟩)).1
    ∧ (handleAxiosError ⟨none, some 503⟩).retryable
        = (specRuleOutcome (firstSpecRule ⟨none, some 503⟩)).2
    ∧ firstSpecRule ⟨none, some 503⟩ = 5 :=
  ⟨(C1_transport_error_classification ⟨none, some 503⟩).1,
   (C1_transport_error_classification ⟨none, some 503⟩).2.2.2.1,
   (C1_transport_error_classification ⟨none, some 503⟩).2.2.2.2,
   by decide⟩

/-- When every attempt from `attempt` through `mR` fails with a retryable
error, the retry loop performs `mR - attempt + 1` attempts and propagates
the last attempt's error. -/
theorem executeWithRetry_all_fail {α : Type} (mR : Nat)
    (op : Nat → Except CarrierError α) :
    ∀ n attempt, mR - attempt = n → attempt ≤ mR →
      (∀ k, attempt ≤ k → k ≤ mR → ∃ e, op k = .error e ∧ e.retryable = true) →
      ∃ e, op mR = .error e
        ∧ executeWithRetry mR op attempt = (.error e, mR - attempt + 1) := by
  intro n
  induction n with
  | zero =>
      intro attempt h1 h2 hfail
      have ha : attempt = mR := by omega
      subst ha
      obtain ⟨e, he, hr⟩ := hfail attempt le_rfl le_rfl
      refine ⟨e, he, ?_⟩
      rw [executeWithRetry, he]
      have hcond : ¬((e.retryable = true) ∧ attempt < attempt) := by
        rintro ⟨-, h⟩; omega
      simp only [dif_neg hcond]
      simp
  | succ n ih =>
      intro attempt h1 h2 hfail
      have hlt : attempt < mR := by omega
      obtain ⟨e0, he0, hr0⟩ := hfail attempt le_rfl (Nat.le_of_lt hlt)
      obtain ⟨e, he, hrun⟩ := ih (attempt + 1) (by omega) (by omega)
        (fun k hk1 hk2 => hfail k (by omega) hk2)
      refine ⟨e, he, ?_⟩
      have hcond : e0.retryable = true ∧ attempt < mR := ⟨hr0, hlt⟩
      have h3 : mR - (attempt + 1) + 1 + 1 = mR - attempt + 1 := by omega
      rw [executeWithRetry, he0]
      simp only [dif_pos hcond, hrun, h3]

/-- C2: for a request whose every attempt fails with a retryable-classified
error, the transport performs the underlying operation exactly
`maxRetries + 1` times (hence at most that) and propagates the last error;
for a request whose first attempt fails with a non-retryable error, it
performs exactly one attempt and propagates that error. -/
theorem C2_transport_retry_attempt_counts {α : Type} (maxRetries : Nat)
    (op : Nat → Except CarrierError α) :
    ((∀ k, k ≤ maxRetries → ∃ e, op k = .error e ∧ e.retryable = true) →
       ∃ e, op maxRetries = .error e
         ∧ executeWithRetry maxRetries op 0 = (.error e, maxRetries + 1))
    ∧ (∀ e, op 0 = .error e → e.retryable = false →
       executeWithRetry maxRetries op 0 = (.error e, 1)) := by
  constructor
  · intro hfail
    obtain ⟨e, he, hrun⟩ := executeWithRetry_all_fail maxRetries op
      (maxRetries - 0) 0 rfl (Nat.zero_le _)
      (fun k _ hk2 => hfail k hk2)
    exact ⟨e, he, by simpa using hrun⟩
  · intro e he hr
    rw [executeWithRetry, he]
    have hcond : ¬((e.retryable = true) ∧ 0 < maxRetries) := by
      rintro ⟨h, -⟩; rw [hr] at h; exact Bool.noConfusion h
    simp only [dif_neg hcond]

/-- C2 witness: with `maxRetries = 2`, an operation that always fails with a
retryable timeout is performed 3 times; an operation that fails with a
non-retryable 4xx error is performed once. -/
theorem C2_transport_retry_attempt_counts_witness :
    executeWithRetry 2 (fun _ => (.error retryableErrSample :
        Except CarrierError Nat)) 0 = (.error retryableErrSample, 3)
    ∧ executeWithRetry 2 (fun _ => (.error nonRetryableErrSample :
        Except CarrierError Nat)) 0 = (.error nonRetryableErrSample, 1) := by
  constructor
  · obtain ⟨e, he, hrun⟩ :=
      (C2_transport_retry_attempt_counts 2
        (fun _ => (.error retryableErrSample : Except CarrierError Nat))).1
        (fun k _ => ⟨retryableErrSample, rfl, rfl⟩)
    have he' : e = retryableErrSample := by
      injection he.symm
    rw [he'] at hrun
    exact hrun
  · exact (C2_transport_retry_attempt_counts 2
      (fun _ => (.error nonRetryableErrSample : Except CarrierError Nat))).2
      nonRetryableErrSample rfl rfl

/-- Setting a key absent from the head entry walks past it. -/
theorem mapSet_cons_ne {β : Type} (p : String × β) (ps : List (String × β))
    (k : String) (v : β) (hp : p.1 ≠ k) :
    mapSet (p :: ps) k v = p :: mapSet ps k v := by
  unfold mapSet
  by_cases hq : ps.any (fun q => q.1 = k) <;>
    simp [List.any_cons, hq, hp]

/-- Setting the head entry's key replaces it in place. -/
theorem mapSet_cons_eq {β : Type} (p : String × β) (ps : List (String × β))
    (k : String) (v : β) (hp : p.1 = k) :
    mapSet (p :: ps) k v
      = (k, v) :: ps.map (fun q => if q.1 = k then (k, v) else q) := by
  unfold mapSet
  simp [List.any_cons, hp]

/-- `Map.get` looks at the head entry first. -/
theorem mapGet_cons {β : Type} (p : String × β) (m : List (String × β))
    (k : String) :
    mapGet (p :: m) k = if p.1 = k then some p.2 else mapGet m k := by
  by_cases hp : p.1 = k <;> simp [mapGet, List.find?_cons, hp]

/-- Replacing the value at key `k` does not change lookups at other keys. -/
theorem mapGet_map_setEntry {β : Type} (ps : List (String × β))
    (k k' : String) (v : β) (hne : k' ≠ k) :
    mapGet (ps.map (fun q => if q.1 = k then (k, v) else q)) k'
      = mapGet ps k' := by
  induction ps with
  | nil => rfl
  | cons q qs ih =>
      by_cases hq : q.1 = k
      · simp only [List.map_cons, if_pos hq, mapGet_cons]
        rw [if_neg (by simpa using hne.symm), if_neg (by rw [hq]; exact hne.symm)]
        exact ih
      · simp only [List.map_cons, if_neg hq, mapGet_cons]
        by_cases hq' : q.1 = k'
        · simp [hq']
        · simp only [if_neg hq']
          exact ih

/-- `Map.get` after `Map.set` at the same key. -/
theorem mapGet_mapSet_self {β : Type} (m : List (String × β)) (k : String)
    (v : β) : mapGet (mapSet m k v) k = some v := by
  induction m with
  | nil => simp [mapSet, mapGet]
  | cons p ps ih =>
      by_cases hp : p.1 = k
      · rw [mapSet_cons_eq p ps k v hp, mapGet_cons]
        simp
      · rw [mapSet_cons_ne p ps k v hp, mapGet_cons, if_neg hp]
        exact ih

/-- `Map.get` after `Map.set` at a different key. -/
theorem mapGet_mapSet_ne {β : Type} (m : List (String × β)) (k k' : String)
    (v : β) (hne : k' ≠ k) : mapGet (mapSet m k v) k' = mapGet m k' := by
  induction m with
  | nil =>
      simp [mapSet, mapGet, List.find?_cons, hne.symm]
  | cons p ps ih =>
      by_cases hp : p.1 = k
      · rw [mapSet_cons_eq p ps k v hp, mapGet_cons]
        rw [if_neg (by simpa using hne.symm), mapGet_cons,
          if_neg (by rw [hp]; exact hne.symm)]
        exact mapGet_map_setEntry ps k k' v hne
      · rw [mapSet_cons_ne p ps k v hp, mapGet_cons, mapGet_cons]
        by_cases hq : p.1 = k'
        · simp [hq]
        · simp only [if_neg hq]
          exact ih

/-- `Map.set` leaves the key list unchanged when the key exists and appends
the key otherwise. -/
theorem keys_mapSet {β : Type} (m : List (String × β)) (k : String) (v : β) :
    (mapSet m k v).map Prod.fst
      = if m.any (fun p => p.1 = k) then m.map Prod.fst
        else m.map Prod.fst ++ [k] := by
  unfold mapSet
  by_cases h : m.any (fun p => p.1 = k)
  · simp only [if_pos h, List.map_map]
    congr 1
    funext p
    by_cases hp : p.1 = k <;> simp [hp]
  · simp [if_neg h]

/-- `Map.set` preserves key distinctness. -/
theorem nodup_keys_mapSet {β : Type} (m : List (String × β)) (k : String)
    (v : β) (h : (m.map Prod.fst).Nodup) :
    ((mapSet m k v).map Prod.fst).Nodup := by
  rw [keys_mapSet]
  by_cases hany : m.any (fun p => p.1 = k)
  · simpa [hany] using h
  · have hk : k ∉ m.map Prod.fst := by
      intro hmem
      obtain ⟨p, hp, hpk⟩ := List.mem_map.mp hmem
      exact hany (List.any_eq_true.mpr ⟨p, hp, by simp [hpk]⟩)
    simp [hany, List.nodup_append, h, hk]

/-- Key membership after `Map.set`. -/
theorem mem_keys_mapSet {β : Type} (m : List (String × β)) (k k' : String)
    (v : β) :
    k' ∈ (mapSet m k v).map Prod.fst ↔ k' ∈ m.map Prod.fst ∨ k' = k := by
  rw [keys_mapSet]
  by_cases hany : m.any (fun p => p.1 = k)
  · simp only [if_pos hany]
    constructor
    · exact Or.inl
    · rintro (h | rfl)
      · exact h
      · simp only [List.any_eq_true] at hany
        obtain ⟨p, hp, hpk⟩ := hany
        simp only [decide_eq_true_eq] at hpk
        exact List.mem_map.mpr ⟨p, hp, hpk⟩
  · simp [if_neg hany]

/-- Lookup in the fold that builds the shop-rates map: a listed name maps to
its own outcome, an unlisted name falls through to the accumulator. -/
theorem foldl_mapSet_get {β : Type} (f : String → β) :
    ∀ (names : List String) (acc : List (String × β)) (n : String),
      mapGet (names.foldl (fun a m => mapSet a m (f m)) acc) n
        = if n ∈ names then some (f n) else mapGet acc n := by
  intro names
  induction names with
  | nil => simp
  | cons m ms ih =>
      intro acc n
      simp only [List.foldl_cons]
      rw [ih]
      by_cases hn : n ∈ ms
      · simp [hn]
      · by_cases he : n = m
        · subst he
          simp [hn, mapGet_mapSet_self]
        · simp [hn, he, mapGet_mapSet_ne acc m n (f m) he]

/-- The fold preserves key distinctness. -/
theorem foldl_mapSet_nodup {β : Type} (f : String → β) :
    ∀ (names : List String) (acc : List (String × β)),
      (acc.map Prod.fst).Nodup →
      ((names.foldl (fun a m => mapSet a m (f m)) acc).map Prod.fst).Nodup := by
  intro names
  induction names with
  | nil => exact fun acc h => h
  | cons m ms ih =>
      intro acc h
      simp only [List.foldl_cons]
      exact ih _ (nodup_keys_mapSet acc m (f m) h)

/-- The fold's keys are the accumulator's keys plus the listed names. -/
theorem foldl_mapSet_mem_keys {β : Type} (f : String → β) :
    ∀ (names : List String) (acc : List (String × β)) (n : String),
      n ∈ (names.foldl (fun a m => mapSet a m (f m)) acc).map Prod.fst
        ↔ n ∈ acc.map Prod.fst ∨ n ∈ names := by
  intro names
  induction names with
  | nil => simp
  | cons m ms ih =>
      intro acc n
      simp only [List.foldl_cons]
      rw [ih, mem_keys_mapSet]
      constructor
      · rintro ((h | rfl) | h)
        · exact Or.inl h
        · simp
        · simp [h]
      · rintro (h | h)
        · exact Or.inl (Or.inl h)
        · rcases List.mem_cons.mp h with rfl | h
          · exact Or.inl (Or.inr rfl)
          · exact Or.inr h

/-- C3: `shopRates` returns a map with exactly one entry per listed carrier
name — the carrier's `getRates` outcome, success or the error raised on that
carrier's path (the registry's unknown-carrier error included, never an
omission) — it raises nothing itself (it is total and returns the map), and
one carrier's entry depends only on that carrier's own path, so no failure
removes or alters another carrier's entry. -/
theorem C3_shoprates_per_carrier_map (envOf : String → UpsEnv)
    (names : List String) (req : RateRequest) :
    (∀ n, n ∈ names →
       mapGet (shopRates envOf names req) n
         = some (CarrierIntegrationService.getRates (envOf n) n req).1)
    ∧ (∀ n, n ∉ names → mapGet (shopRates envOf names req) n = none)
    ∧ ((shopRates envOf names req).map Prod.fst).Nodup
    ∧ (∀ n, n ∈ (shopRates envOf names req).map Prod.fst ↔ n ∈ names)
    ∧ (∀ envOf' : String → UpsEnv, ∀ n, n ∈ names → envOf' n = envOf n →
        mapGet (shopRates envOf' names req) n
          = mapGet (shopRates envOf names req) n) := by
  have hget := foldl_mapSet_get
    (fun n => (CarrierIntegrationService.getRates (envOf n) n req).1) names []
  refine ⟨?_, ?_, ?_, ?_, ?_⟩
  · intro n hn
    simpa [shopRates, hn] using hget n
  · intro n hn
    simpa [shopRates, hn, mapGet] using hget n
  · exact foldl_mapSet_nodup _ names [] (by simp)
  · intro n
    simpa using foldl_mapSet_mem_keys
      (fun n => (CarrierIntegrationService.getRates (envOf n) n req).1)
      names [] n
  · intro envOf' n hn henv
    have hget' := foldl_mapSet_get
      (fun n => (CarrierIntegrationService.getRates (envOf' n) n req).1)
      names [] n
    rw [show shopRates envOf' names req
        = names.foldl (fun a m => mapSet a m
            ((fun n => (CarrierIntegrationService.getRates (envOf' n) n req).1)
              m)) [] from rfl,
      hget', if_pos hn,
      show shopRates envOf names req
        = names.foldl (fun a m => mapSet a m
            ((fun n => (CarrierIntegrationService.getRates (envOf n) n req).1)
              m)) [] from rfl,
      hget n, if_pos hn, henv]

/-- C3 witness: shopping `["ups", "fedex"]` yields exactly the two entries —
a rate response for `ups`, the registry's plain lookup error for `fedex` —
and no entry for an unlisted name. -/
theorem C3_shoprates_per_carrier_map_witness :
    mapGet (shopRates (fun _ => sampleEnv) ["ups", "fedex"] sampleRequest)
        "ups"
      = some (CarrierIntegrationService.getRates sampleEnv "ups"
          sampleRequest).1
    ∧ mapGet (shopRates (fun _ => sampleEnv) ["ups", "fedex"] sampleRequest)
        "fedex"
      = some (CarrierIntegrationService.getRates sampleEnv "fedex"
          sampleRequest).1
    ∧ mapGet (shopRates (fun _ => sampleEnv) ["ups", "fedex"] sampleRequest)
        "dhl" = none :=
  ⟨(C3_shoprates_per_carrier_map (fun _ => sampleEnv) ["ups", "fedex"]
      sampleRequest).1 "ups" (by simp),
   (C3_shoprates_per_carrier_map (fun _ => sampleEnv) ["ups", "fedex"]
      sampleRequest).1 "fedex" (by simp),
   (C3_shoprates_per_carrier_map (fun _ => sampleEnv) ["ups", "fedex"]
      sampleRequest).2.1 "dhl" (by simp)⟩

/-- C4 counterexample: token acquisition that fails because the transport
classified the OAuth call's fault (here a 5xx, `SERVICE_UNAVAILABLE`) — a
failure that is not a malformed token response — propagates that error
unchanged, so `getAccessToken` fails with a code that is neither
`AUTH_FAILED` nor `API_ERROR`, refuting the claim that every
non-malformed-response failure yields `AUTH_FAILED`. -/
theorem C4_token_error_cex :
    (getAccessToken none 0 (.classified
        { code := .SERVICE_UNAVAILABLE,
          message := "Carrier service temporarily unavailable",
          retryable := true })).1
      = .error { code := .SERVICE_UNAVAILABLE,
                 message := "Carrier service temporarily unavailable",
                 retryable := true }
    ∧ ErrorCode.SERVICE_UNAVAILABLE ≠ ErrorCode.AUTH_FAILED
    ∧ ErrorCode.SERVICE_UNAVAILABLE ≠ ErrorCode.API_ERROR :=
  ⟨rfl, by decide, by decide⟩

/-- C4 amended: when token acquisition fails, it fails with `API_ERROR` if
the OAuth call succeeded but the token response is malformed (required
fields absent or of the wrong type); a failure the transport already
classified as a `CarrierIntegrationError` propagates unchanged with its own
code; every other cause of failure yields `AUTH_FAILED`. -/
theorem C4_token_error_classification (now : ℚ)
    (post : PostOutcome RawTokenResponse) :
    (∀ raw, post = .ok raw → parseTokenResponse raw = none →
       (getAccessToken none now post).1
         = .error { code := .API_ERROR,
                    message := "Invalid token response from UPS",
                    retryable := false })
    ∧ (∀ e, post = .classified e →
       (getAccessToken none now post).1 = .error e)
    ∧ (∀ msg, post = .otherFailure msg →
       (getAccessToken none now post).1
         = .error { code := .AUTH_FAILED,
                    message := "Failed to acquire OAuth token",
                    retryable := false }) := by
  refine ⟨?_, ?_, ?_⟩
  · rintro raw rfl hparse
    simp [getAccessToken, acquireToken, hparse]
  · rintro e rfl
    rfl
  · rintro msg rfl
    rfl

/-- C4 witness: a token body missing `access_token` fails with `API_ERROR`;
a non-classified throw fails with `AUTH_FAILED`. -/
theorem C4_token_error_classification_witness :
    (getAccessToken none 0
        (.ok ⟨.absent, .str "Bearer", .num 3600, .absent⟩)).1
      = .error { code := .API_ERROR,
                 message := "Invalid token response from UPS",
                 retryable := false }
    ∧ (getAccessToken none 0 (.otherFailure "boom")).1
      = .error { code := .AUTH_FAILED,
                 message := "Failed to acquire OAuth token",
                 retryable := false } :=
  ⟨(C4_token_error_classification 0 _).1 _ rfl rfl,
   (C4_token_error_classification 0 _).2.2 "boom" rfl⟩

/-- C5: a cached token counts as valid exactly while
`now < expiresAt − 300 s`; a token acquired at time `t` with
`expires_in = 3600` s is treated as invalid from `t + 3300` s on — the
300 s buffer — not from `t + 3600` s. -/
theorem C5_token_validity_window :
    (∀ (now : ℚ) (tok : CachedToken),
       isTokenValid now tok = true ↔ now < tok.expiresAt - 300000)
    ∧ (∀ (t now : ℚ) (s : String) (tok : CachedToken),
       (acquireToken t (.ok (rawToken s 3600)) none).2 = some tok →
       (isTokenValid now tok = false ↔ t + 3300000 ≤ now)) := by
  constructor
  · intro now tok
    simp [isTokenValid, tokenBuffer]
  · intro t now s tok h
    have htok : ({ accessToken := s, expiresAt := t + 3600 * 1000 } :
        CachedToken) = tok := by
      simpa [acquireToken, rawToken, parseTokenResponse] using h
    subst htok
    simp only [isTokenValid, tokenBuffer, decide_eq_false_iff_not, not_lt]
    constructor <;> intro h' <;> [linarith; linarith]

/-- C5 witness: a token acquired at `t = 0` with `expires_in = 3600` is
invalid at 3 300 000 ms and still valid at 3 299 999 ms. -/
theorem C5_token_validity_window_witness :
    isTokenValid 3300000
        { accessToken := "tok", expiresAt := (0 : ℚ) + 3600 * 1000 } = false
    ∧ isTokenValid 3299999
        { accessToken := "tok", expiresAt := (0 : ℚ) + 3600 * 1000 } = true := by
  constructor
  · exact (C5_token_validity_window.2 0 3300000 "tok" _ rfl).mpr (by norm_num)
  · exact (C5_token_validity_window.1 3299999 _).mpr (by norm_num)

/-- C6 counterexample: the actual inter-attempt delay is not non-decreasing
in attempt index: with jitter draws `0.999` before retry attempt 4 and `0`
before retry attempt 5 (both in `[0, 1)`), the delay before attempt 5
(10 000 ms) is strictly smaller than the delay before attempt 4
(10 999 ms). -/
theorem C6_backoff_cex :
    calculateBackoffDelay 5 0 < calculateBackoffDelay 4 (999 / 1000)
    ∧ (0 : ℚ) ≤ 999 / 1000 ∧ (999 / 1000 : ℚ) < 1
    ∧ (0 : ℚ) ≤ 0 ∧ (0 : ℚ) < 1 := by
  refine ⟨?_, by norm_num, by norm_num, le_refl 0, by norm_num⟩
  norm_num [calculateBackoffDelay]

/-- C6 amended: the delay before retry attempt `n` (0-indexed) equals
`min(1000·2^n, 10000) + r` with the jitter `r = rand·1000` drawn uniformly
from `[0, 1000)` ms; the deterministic component `min(1000·2^n, 10000)` is
non-decreasing in the attempt index and every delay is bounded by
`maxDelay + jitterMax = 11000` ms — but the jitter-inclusive delay need not
be non-decreasing. -/
theorem C6_backoff_delay (n : Nat) (rand : ℚ)
    (h0 : 0 ≤ rand) (h1 : rand < 1) :
    calculateBackoffDelay n rand
      = min ((1000 : ℚ) * 2 ^ n) 10000 + rand * 1000
    ∧ min ((1000 : ℚ) * 2 ^ n) 10000 ≤ min ((1000 : ℚ) * 2 ^ (n + 1)) 10000
    ∧ calculateBackoffDelay n rand ≤ 11000 := by
  refine ⟨rfl, ?_, ?_⟩
  · refine min_le_min ?_ le_rfl
    have h2 : (2 : ℚ) ^ n ≤ 2 ^ (n + 1) := by
      apply pow_le_pow_right₀ (by norm_num) (by omega)
    linarith
  · rw [show calculateBackoffDelay n rand
        = min ((1000 : ℚ) * 2 ^ n) 10000 + rand * 1000 from rfl]
    have hle : min ((1000 : ℚ) * 2 ^ n) 10000 ≤ 10000 := min_le_right _ _
    linarith

/-- C6 witness: the amended backoff property evaluated at attempt 4 with
`rand = 1/2`. -/
theorem C6_backoff_delay_witness :
    calculateBackoffDelay 4 (1 / 2)
      = min ((1000 : ℚ) * 2 ^ 4) 10000 + (1 / 2) * 1000
    ∧ min ((1000 : ℚ) * 2 ^ 4) 10000 ≤ min ((1000 : ℚ) * 2 ^ (4 + 1)) 10000
    ∧ calculateBackoffDelay 4 (1 / 2) ≤ 11000 :=
  C6_backoff_delay 4 (1 / 2) (by norm_num) (by norm_num)

/-- C7: a rate request violating the schema invariants — in particular any
request with zero packages — makes `UpsCarrier.getRates` fail with
`VALIDATION_ERROR` (retryable = false) while performing no network call:
neither token acquisition nor the rating endpoint is invoked and the token
cache is untouched. -/
theorem C7_validation_before_network (env : UpsEnv)
    (cache : Option CachedToken) (req : RateRequest) :
    (validRateRequest req = false →
       UpsCarrier.getRates env cache req
         = (.error validationError, cache, []))
    ∧ (req.packages = [] → validRateRequest req = false) := by
  constructor
  · intro h
    simp [UpsCarrier.getRates, h]
  · intro h
    simp [validRateRequest, h]

/-- C7 witness: the zero-package request fails with `VALIDATION_ERROR` and
an empty network trace. -/
theorem C7_validation_before_network_witness :
    UpsCarrier.getRates sampleEnv none emptyPackagesRequest
      = (.error validationError, none, [])
    ∧ emptyPackagesRequest.packages = [] := by
  have h := C7_validation_before_network sampleEnv none emptyPackagesRequest
  exact ⟨h.1 (h.2 rfl), rfl⟩

/-- A successful `getAccessToken` leaves a cached token holding exactly the
returned token string. -/
theorem getAccessToken_ok_state (cache : Option CachedToken) (now : ℚ)
    (p : PostOutcome RawTokenResponse) (t : String) (st : Option CachedToken)
    (calls : List NetCall)
    (h : getAccessToken cache now p = (.ok t, st, calls)) :
    ∃ tok : CachedToken, st = some tok ∧ tok.accessToken = t := by
  have acquire_case : ∀ st' : Option CachedToken,
      (acquireToken now p st').1 = .ok t → (acquireToken now p st').2 = st →
      ∃ tok : CachedToken, st = some tok ∧ tok.accessToken = t := by
    intro st' h1 h2
    rcases p with raw | e | msg
    · simp only [acquireToken] at h1 h2
      rcases hp : parseTokenResponse raw with _ | td <;> rw [hp] at h1 h2
      · simp at h1
      · simp only [Except.ok.injEq] at h1
        exact ⟨_, h2.symm, h1⟩
    · simp only [acquireToken] at h1
      simp at h1
    · simp only [acquireToken] at h1
      simp at h1
  rcases cache with _ | tok0
  · simp only [getAccessToken] at h
    simp only [Prod.mk.injEq] at h
    exact acquire_case none h.1 h.2.1
  · simp only [getAccessToken] at h
    by_cases hv : isTokenValid now tok0 = true
    · rw [if_pos hv] at h
      simp only [Prod.mk.injEq, Except.ok.injEq] at h
      exact ⟨tok0, h.2.1.symm, h.1⟩
    · rw [if_neg hv] at h
      simp only [Prod.mk.injEq] at h
      exact acquire_case (some tok0) h.1 h.2.1

/-- C8 counterexample: `getToken` succeeds returning `"A"` (a token with
`expires_in = 100` s, below the 300 s buffer), and the immediately following
call — no time passed, no `clear()` — re-acquires over the network and
returns the different token string `"B"`, refuting "returns the same token
string ... the cached token is reused without re-acquisition". -/
theorem C8_token_reuse_cex :
    (getAccessToken none 0 (.ok (rawToken "A" 100))).1 = .ok "A"
    ∧ (getAccessToken (getAccessToken none 0 (.ok (rawToken "A" 100))).2.1 0
        (.ok (rawToken "B" 3600))).1 = .ok "B"
    ∧ (getAccessToken (getAccessToken none 0 (.ok (rawToken "A" 100))).2.1 0
        (.ok (rawToken "B" 3600))).2.2 = [NetCall.oauth] := by
  refine ⟨rfl, ?_, ?_⟩ <;>
    norm_num [getAccessToken, acquireToken, rawToken, parseTokenResponse,
      isTokenValid, tokenBuffer]

/-- C8 amended: if `getToken` succeeds and the token it leaves cached is
still within its freshness window at that same instant
(`now < expiresAt − 300 s`; for a token acquired by that very call this
means `expires_in > 300` s), then a second call with no intervening time
and no `clear()` returns the same token string, leaves the cache unchanged,
and issues no network call. (A first call that cached a token with
`expires_in ≤ 300` s is immediately stale and the second call re-acquires,
issuing one network call.) -/
theorem C8_token_cache_reuse (cache : Option CachedToken) (now : ℚ)
    (p1 p2 : PostOutcome RawTokenResponse) (t : String)
    (st1 : Option CachedToken) (calls1 : List NetCall)
    (h1 : getAccessToken cache now p1 = (.ok t, st1, calls1))
    (hfresh : ∀ tok, st1 = some tok → now < tok.expiresAt - tokenBuffer) :
    getAccessToken st1 now p2 = (.ok t, st1, []) := by
  obtain ⟨tok, hst, htok⟩ := getAccessToken_ok_state cache now p1 t st1
    calls1 h1
  subst hst
  have hv : isTokenValid now tok = true :=
    decide_eq_true (hfresh tok rfl)
  simp [getAccessToken, hv, htok]

/-- C8 witness: after acquiring token `"A"` with `expires_in = 3600` s at
time 0, an immediate second call returns `"A"` again with no network call,
even though a different token `"B"` would be served by the endpoint. -/
theorem C8_token_cache_reuse_witness :
    getAccessToken
        (some { accessToken := "A", expiresAt := (0 : ℚ) + 3600 * 1000 }) 0
        (.ok (rawToken "B" 3600))
      = (.ok "A",
         some { accessToken := "A", expiresAt := (0 : ℚ) + 3600 * 1000 },
         []) := by
  apply C8_token_cache_reuse none 0 (.ok (rawToken "A" 3600))
    (.ok (rawToken "B" 3600)) "A" _ [NetCall.oauth] rfl
  rintro tok htok
  cases Option.some.inj htok
  norm_num [tokenBuffer]

/-- C9 counterexample: a schema-valid UPS response (status code "1", a
rated shipment whose `TimeInTransit.BusinessDaysInTransit` is the string
`"-2"`) maps to a quote whose `transitDays` is present and equal to −2 —
not absent and not an integer ≥ 0. -/
theorem C9_transit_days_cex :
    ((mapUpsResponseToRates negativeTransitUpsResponse).quotes.map
        RateQuote.transitDays) = [some (JsNum.num (-2))]
    ∧ ¬ (0 : ℚ) ≤ -2 := by
  refine ⟨by rfl, by norm_num⟩

/-- A digit character is not whitespace. -/
theorem isDigit_not_whitespace (c : Char) (h : c.isDigit = true) :
    c.isWhitespace = false := by
  by_contra hw
  rw [Bool.not_eq_false] at hw
  simp only [Char.isWhitespace, Bool.or_eq_true, decide_eq_true_eq] at hw
  rcases hw with ((rfl | rfl) | rfl) | rfl <;> exact absurd h (by decide)

/-- `parseInt` of a non-empty all-digit string is a non-negative integer. -/
theorem parseIntJs_digits (v : String) (hne : v.toList ≠ [])
    (hd : ∀ c ∈ v.toList, c.isDigit = true) :
    ∃ n : Nat, parseIntJs v = .num n := by
  unfold parseIntJs
  rcases hv : v.toList with _ | ⟨c, cs⟩
  · exact absurd hv hne
  · have hc : c.isDigit = true := hd c (by rw [hv]; exact List.mem_cons_self c cs)
    have hw : (c :: cs).dropWhile Char.isWhitespace = c :: cs := by
      rw [List.dropWhile_cons, if_neg (by simp [isDigit_not_whitespace c hc])]
    have hminus : ¬(c = '-') := by
      rintro rfl; exact absurd hc (by decide)
    have hplus : ¬(c = '+') := by
      rintro rfl; exact absurd hc (by decide)
    have hall : takeDigits (c :: cs) = c :: cs := by
      unfold takeDigits
      rw [List.takeWhile_eq_self_iff.mpr]
      intro a ha
      exact hd a (by rw [hv]; exact ha)
    rw [hw]
    simp only [if_neg hminus, if_neg hplus, hall]
    simp only [List.isEmpty_cons, Bool.false_eq_true, if_false]
    exact ⟨digitsToNat (c :: cs), rfl⟩

/-- C9 amended: `mapUpsResponseToRates` maps each rated shipment to a quote
whose `transitDays` is `parseInt` of the string selected by the defined
fallback priority — `TimeInTransit.BusinessDaysInTransit` when present and
non-empty, else `GuaranteedDelivery.BusinessDaysInTransit` when present and
non-empty — and is absent when neither is; the value is an integer ≥ 0
whenever the selected string is a non-empty digit string, but for other
schema-valid strings it may be negative or NaN. -/
theorem C9_transit_days (resp : UpsRateResponse) :
    ((mapUpsResponseToRates resp).quotes
       = (upsShipmentList resp).map mapRatedShipment)
    ∧ (∀ s : UpsRatedShipment,
        (mapRatedShipment s).transitDays
          = (specTransitSource s).map parseIntJs)
    ∧ (∀ s : UpsRatedShipment, specTransitSource s = none →
        (mapRatedShipment s).transitDays = none)
    ∧ (∀ s : UpsRatedShipment, ∀ v : String, specTransitSource s = some v →
        v.toList ≠ [] → (∀ c ∈ v.toList, c.isDigit = true) →
        ∃ n : Nat, (mapRatedShipment s).transitDays = some (.num n)) := by
  have hsel : ∀ s : UpsRatedShipment,
      (mapRatedShipment s).transitDays
        = (specTransitSource s).map parseIntJs := by
    intro s
    unfold mapRatedShipment specTransitSource
    rcases h1 : truthyString (s.TimeInTransit.bind
        UpsTimeInTransit.BusinessDaysInTransit) with _ | v
    · rcases h2 : truthyString (s.GuaranteedDelivery.bind
          UpsGuaranteedDelivery.BusinessDaysInTransit) with _ | w <;>
        simp [h1, h2]
    · simp [h1]
  refine ⟨rfl, hsel, ?_, ?_⟩
  · intro s h
    rw [hsel s, h]
    rfl
  · intro s v hv hne hd
    obtain ⟨n, hn⟩ := parseIntJs_digits v hne hd
    exact ⟨n, by rw [hsel s, hv]; simp [hn]⟩

/-- C9 witness: the amended extraction evaluated on a shipment whose
transit string is the digit string `"3"`. -/
theorem C9_transit_days_witness :
    (mapRatedShipment sampleTransitShipment).transitDays
        = (specTransitSource sampleTransitShipment).map parseIntJs
    ∧ ∃ n : Nat, (mapRatedShipment sampleTransitShipment).transitDays
        = some (.num n) :=
  ⟨(C9_transit_days negativeTransitUpsResponse).2.1 sampleTransitShipment,
   (C9_transit_days negativeTransitUpsResponse).2.2.2 sampleTransitShipment
     "3" rfl (by decide) (by decide)⟩

/-- A valid request's `UpsCarrier.getRates` run performs the oauth call
first: its network trace starts with `NetCall.oauth` when the token cache
starts empty. -/
theorem upsGetRates_trace_oauth (env : UpsEnv) (req : RateRequest)
    (hval : validRateRequest req = true) :
    ∃ rest, (UpsCarrier.getRates env none req).2.2
      = NetCall.oauth :: rest := by
  unfold UpsCarrier.getRates
  rw [if_neg (by simp [hval])]
  rcases hga : getAccessToken none env.now env.tokenPost with ⟨res, st, calls⟩
  have hcalls : calls = [NetCall.oauth] := by
    have h := congrArg (fun x : Except CarrierError String ×
      Option CachedToken × List NetCall => x.2.2) hga
    simpa [getAccessToken] using h.symm
  subst hcalls
  rcases res with e | tk
  · simp
  · rcases env.ratingPost with parsedOpt | e | errs | msg
    · rcases parsedOpt with _ | parsed
      · exact ⟨[NetCall.rating], rfl⟩
      · by_cases hc : parsed.Response.ResponseStatus.Code ≠ "1" <;>
          simp [hc]
    · exact ⟨[NetCall.rating], rfl⟩
    · exact ⟨[NetCall.rating], rfl⟩
    · exact ⟨[NetCall.rating], rfl⟩

/-- C10: every `createCarrier` call returns an adapter whose token cache
starts empty (the factory lambda constructs a fresh `UpsCarrier`, whose
auth manager starts with `cachedToken = null`); an empty cache always
acquires over the network; and a top-level
`CarrierIntegrationService.getRates` runs the adapter from that empty
cache, so whenever it reaches the token step its trace starts with its own
oauth call — no token from a previous top-level call (or from another
`shopRates` sibling) can be reused. -/
theorem C10_fresh_adapter_per_call (name : String) (env : UpsEnv)
    (req : RateRequest) :
    (∀ c, createCarrier name = .ok c → c.initialCache = none)
    ∧ (∀ (now : ℚ) (p : PostOutcome RawTokenResponse),
        (getAccessToken none now p).2.2 = [NetCall.oauth])
    ∧ (createCarrier name = .ok { initialCache := none } →
       validRateRequest req = true →
       ∃ rest, (CarrierIntegrationService.getRates env name req).2
         = NetCall.oauth :: rest) := by
  refine ⟨?_, ?_, ?_⟩
  · intro c h
    unfold createCarrier at h
    by_cases hn : toLowerCase name = "ups"
    · rw [if_pos hn] at h
      cases Except.ok.inj h
      rfl
    · rw [if_neg hn] at h
      exact Except.noConfusion h
  · intro now p
    rfl
  · intro hc hval
    obtain ⟨rest, hrest⟩ := upsGetRates_trace_oauth env req hval
    refine ⟨rest, ?_⟩
    unfold CarrierIntegrationService.getRates
    rw [hc]
    rcases hur : UpsCarrier.getRates env none req with ⟨res, st, calls⟩
    have hcalls : calls = NetCall.oauth :: rest := by
      have h := congrArg (fun x : Except CarrierError RateResponse ×
        Option CachedToken × List NetCall => x.2.2) hur
      simp only at h
      rw [← h, hrest]
    subst hcalls
    rcases res with e | r <;> simp [hur]

/-- C10 witness: the factory's `ups` adapter starts with an empty cache and
a valid request's top-level `getRates` trace starts with the oauth call. -/
theorem C10_fresh_adapter_per_call_witness :
    ({ initialCache := none } : UpsCarrierInst).initialCache = none
    ∧ (getAccessToken none 0 (.ok (rawToken "tok" 3600))).2.2
        = [NetCall.oauth]
    ∧ ∃ rest, (CarrierIntegrationService.getRates sampleEnv "ups"
        sampleRequest).2 = NetCall.oauth :: rest :=
  ⟨(C10_fresh_adapter_per_call "ups" sampleEnv sampleRequest).1
      { initialCache := none }
      (by rw [createCarrier, if_pos (by decide)]),
   (C10_fresh_adapter_per_call "ups" sampleEnv sampleRequest).2.1 0
      (.ok (rawToken "tok" 3600)),
   (C10_fresh_adapter_per_call "ups" sampleEnv sampleRequest).2.2
      (by rw [createCarrier, if_pos (by decide)]) (by decide)⟩

end Cybership
